import Mathlib

/-!
Shallow embedding of `src/network/listener.rs` (the `NodeSession` per-connection
session actor of the raftor transport layer) and proofs about its dispatch,
heartbeat and identity behaviour.

Modelling conventions:
* `Instant` / `Duration` are modelled as `Nat` time units (seconds in the
  source: the heartbeat interval `Duration::new(1, 0)` is 1 unit, the
  liveness threshold `Duration::new(10, 0)` is 10 units).
* The serde boundary (`serde_json::from_slice::<T>(..)` for the three typed
  request shapes of `actix_raft::messages`) is library code outside this
  repository; it is modelled by a `SerdeModel` of three predicates saying
  whether a body deserializes as the given typed request.  Any faithful
  instance rejects some bodies (the empty string is not valid JSON for any
  of the three request types).  `serde_json::to_string` on a value that was
  produced by the engine is modelled as total: the engine model directly
  yields the serialized response payload.
* The engine handle `self.raft : Option<Addr<MemRaft>>` is modelled as an
  optional function from the typed request (kind and body) to the outcome of
  `raft.send(..)`: the mailbox may be closed (the `map_err(|_| ())` path),
  the raft handler may answer `Err` (the inner `res.unwrap()` then panics),
  or it answers with a response whose serialization is the payload.
* Effects (frames written via `act.framed.write`, `PeerConnected`
  notifications via `self.network.do_send`, messages sent to the raft
  mailbox) are returned as explicit event lists; an `unwrap`-style panic is
  the `aborted` flag / the `abort` outcome.
-/

namespace Raftor

/-- `actix_raft::NodeId` is `u64`; no arithmetic is performed on it, so `Nat`
suffices. -/
abbrev NodeId := Nat

/-- Inbound frames decoded by `NodeCodec` (`NodeRequest` in the source).  The
source match has a wildcard arm `_ => ()`, so `other` stands for any further
codec variant; per the spec, unrecognized frames are ignored. -/
inductive NodeRequest where
  | ping : NodeRequest
  | join : NodeId → NodeRequest
  | message : Nat → String → String → NodeRequest
  | other : NodeRequest
deriving DecidableEq

/-- Outbound frames written by the session (`NodeResponse` in the source):
`Ping` keepalives and `Result(correlation id, payload)`. -/
inductive NodeResponse where
  | ping : NodeResponse
  | result : Nat → String → NodeResponse
deriving DecidableEq

/-- Outcome of one `raft.send(raft_msg)` call as seen by the `SendToRaft`
handler: the raft mailbox is closed (`map_err(|_| ())`), the raft handler
answered `Err` (so the inner `res.unwrap()` panics), or it answered `Ok` with
a response whose `serde_json::to_string` serialization is the given payload. -/
inductive RaftSendOutcome where
  | mailboxClosed : RaftSendOutcome
  | handlerErr : RaftSendOutcome
  | ok : String → RaftSendOutcome
deriving DecidableEq

/-- Model of an attached `Addr<MemRaft>` engine handle: maps the typed RPC
request (identified by its kind string and the body it was decoded from) to
the outcome of sending it to the raft mailbox. -/
def Engine := String → String → RaftSendOutcome

/-- Model of the serde boundary: whether a body byte-string deserializes as
each of the three typed request shapes.  These are
`serde_json::from_slice::<messages::AppendEntriesRequest<..>>`,
`::<messages::VoteRequest>` and `::<messages::InstallSnapshotRequest>` in the
source — library code, abstracted to success predicates. -/
structure SerdeModel where
  decAppendEntries : String → Bool
  decVote : String → Bool
  decInstallSnapshot : String → Bool

/-- Per-connection session state (`struct NodeSession`).  The `framed` write
half and the `network` address are modelled as event lists in the step
results; the `handlers` map is initialized empty and never used in
`listener.rs`, so it is omitted. -/
structure NodeSession where
  hb : Nat
  id : Option NodeId
  raft : Option Engine

/-- `RaftCreated` handler: attaches the late-bound engine handle
(`self.raft = Some(msg.0)`). -/
def handleRaftCreated (e : Engine) (s : NodeSession) : NodeSession :=
  { s with raft := some e }

/-- Resolution of the `SendToRaft` message (`Result<String, ()>`, possibly
behind a `Response::fut`): `abort` is an `unwrap` panic inside the handler or
its future, `err` is `Err(())`, `ok` is `Ok(payload)`. -/
inductive FutResult where
  | abort : FutResult
  | err : FutResult
  | ok : String → FutResult
deriving DecidableEq

/-- Result of dispatching one `SendToRaft`: how the `Result<String, ()>`
resolves, plus the list of `(kind, body)` RPC messages actually sent to the
raft mailbox (so that "the engine was never invoked" and "the call was never
retried" are observable). -/
structure DispatchResult where
  result : FutResult
  engineCalls : List (String × String)
deriving DecidableEq

/-- The `if let Some(ref mut raft) = self.raft` body shared by the three
supported arms: send the typed message to the raft mailbox and build the
response future.  A closed mailbox resolves the future to `Err(())`; a raft
handler `Err` panics at the inner `res.unwrap()`; otherwise the serialized
response is the payload. -/
def raftCall (r : Engine) (typeId body : String) : DispatchResult :=
  match r typeId body with
  | RaftSendOutcome.mailboxClosed => ⟨FutResult.err, [(typeId, body)]⟩
  | RaftSendOutcome.handlerErr => ⟨FutResult.abort, [(typeId, body)]⟩
  | RaftSendOutcome.ok res => ⟨FutResult.ok res, [(typeId, body)]⟩

/-- The `Handler<SendToRaft> for NodeSession` match on `type_id.as_str()`.
For each supported kind the body is deserialized first
(`serde_json::from_slice(..).unwrap()` — failure panics) and only then is
`self.raft` inspected; an absent handle replies `Ok("")`.  The wildcard arm
replies `Ok("")` without touching serde or the engine. -/
def handleSendToRaft (sd : SerdeModel) (raft : Option Engine)
    (typeId body : String) : DispatchResult :=
  if typeId = "AppendEntriesRequest" then
    if sd.decAppendEntries body then
      match raft with
      | some r => raftCall r typeId body
      | none => ⟨FutResult.ok "", []⟩
    else ⟨FutResult.abort, []⟩
  else if typeId = "VoteRequest" then
    if sd.decVote body then
      match raft with
      | some r => raftCall r typeId body
      | none => ⟨FutResult.ok "", []⟩
    else ⟨FutResult.abort, []⟩
  else if typeId = "InstallSnapshotRequest" then
    if sd.decInstallSnapshot body then
      match raft with
      | some r => raftCall r typeId body
      | none => ⟨FutResult.ok "", []⟩
    else ⟨FutResult.abort, []⟩
  else ⟨FutResult.ok "", []⟩

/-- Observable effect of handling one inbound frame: the updated session
state, the `PeerConnected` notifications sent to the network actor, the
frames written to the connection, the RPC messages sent to the raft mailbox,
and whether an `unwrap`-style panic occurred. -/
structure StepResult where
  session : NodeSession
  peerConnected : List NodeId
  writes : List NodeResponse
  engineCalls : List (String × String)
  aborted : Bool

/-- The `StreamHandler<NodeRequest>` match, with the completed effect of the
spawned `Message` task inlined: `Ping` refreshes `self.hb`; `Join` sets
`self.id` and sends `PeerConnected`; `Message` self-sends `SendToRaft` and,
on completion, writes `NodeResponse::Result(mid, res.unwrap())` — so an
`Ok(payload)` resolution writes exactly one `Result` frame, while `Err(())`
panics at `res.unwrap()` and a panic inside the handler aborts outright. -/
def handleFrame (sd : SerdeModel) (now : Nat) (msg : NodeRequest)
    (s : NodeSession) : StepResult :=
  match msg with
  | NodeRequest.ping =>
      { session := { s with hb := now }, peerConnected := [], writes := [],
        engineCalls := [], aborted := false }
  | NodeRequest.join i =>
      { session := { s with id := some i }, peerConnected := [i], writes := [],
        engineCalls := [], aborted := false }
  | NodeRequest.message mid typeId body =>
      let d := handleSendToRaft sd s.raft typeId body
      match d.result with
      | FutResult.ok payload =>
          { session := s, peerConnected := [],
            writes := [NodeResponse.result mid payload],
            engineCalls := d.engineCalls, aborted := false }
      | FutResult.err =>
          { session := s, peerConnected := [], writes := [],
            engineCalls := d.engineCalls, aborted := true }
      | FutResult.abort =>
          { session := s, peerConnected := [], writes := [],
            engineCalls := d.engineCalls, aborted := true }
  | NodeRequest.other =>
      { session := s, peerConnected := [], writes := [],
        engineCalls := [], aborted := false }

/-- Accumulated effect of handling a sequence of timed inbound frames; a
panic stops the run (the process aborts). -/
structure RunResult where
  session : NodeSession
  peerConnected : List NodeId
  writes : List NodeResponse
  aborted : Bool

/-- Fold `handleFrame` over a list of `(arrival time, frame)` pairs, stopping
at the first abort. -/
def runFrames (sd : SerdeModel) (frames : List (Nat × NodeRequest))
    (s : NodeSession) : RunResult :=
  match frames with
  | [] => ⟨s, [], [], false⟩
  | (now, f) :: rest =>
      let st := handleFrame sd now f s
      if st.aborted then
        ⟨st.session, st.peerConnected, st.writes, true⟩
      else
        let r := runFrames sd rest st.session
        ⟨r.session, st.peerConnected ++ r.peerConnected,
         st.writes ++ r.writes, r.aborted⟩

/-- Effect of one `run_interval` heartbeat tick (`NodeSession::hb` closure)
at absolute time `now`: `ctx.stop()` is called iff the elapsed time since the
last heartbeat exceeds 10 units, and a `Ping` reply is written
unconditionally afterwards. -/
structure TickResult where
  stopped : Bool
  writes : List NodeResponse
deriving DecidableEq

/-- The body of the `ctx.run_interval(Duration::new(1, 0), ..)` closure. -/
def hbTick (now : Nat) (act : NodeSession) : TickResult :=
  { stopped := decide (now - act.hb > 10),
    writes := [NodeResponse.ping] }

/-- The three kind strings accepted by the `SendToRaft` match. -/
def supportedKinds : List String :=
  ["AppendEntriesRequest", "VoteRequest", "InstallSnapshotRequest"]

/-- Whether `body` deserializes under the typed request selected by `typeId`;
for an unsupported kind no deserialization is attempted, so it vacuously
holds. -/
def decodesAs (sd : SerdeModel) (typeId body : String) : Bool :=
  if typeId = "AppendEntriesRequest" then sd.decAppendEntries body
  else if typeId = "VoteRequest" then sd.decVote body
  else if typeId = "InstallSnapshotRequest" then sd.decInstallSnapshot body
  else true

/-- The identities of the `Join` frames of a frame list, in order (the
expected `PeerConnected` notification sequence). -/
def joinIds : List NodeRequest → List NodeId
  | [] => []
  | NodeRequest.join i :: rest => i :: joinIds rest
  | _ :: rest => joinIds rest

/-- The identity recorded after a frame list: each `Join` overwrites the
accumulator, every other frame leaves it unchanged. -/
def lastJoin : List NodeRequest → Option NodeId → Option NodeId
  | [], acc => acc
  | NodeRequest.join i :: rest, _ => lastJoin rest (some i)
  | _ :: rest, acc => lastJoin rest acc

/-- Fresh session as built by `NodeSession::new`: `hb` is the creation
instant, no identity, no engine handle. -/
def newSession (now : Nat) : NodeSession :=
  { hb := now, id := none, raft := none }

/-- Concrete serde instance for witnesses and counterexamples: the empty
body fails to deserialize (as it does under `serde_json` — the empty string
is not valid JSON for any of the three request types), any other body
succeeds. -/
def sdProbe : SerdeModel :=
  { decAppendEntries := fun b => b != "",
    decVote := fun b => b != "",
    decInstallSnapshot := fun b => b != "" }

/-- Concrete engine whose mailbox is closed: every `raft.send` fails with a
mailbox error (the engine-unreachable failure of the spec). -/
def engineDown : Engine := fun _ _ => RaftSendOutcome.mailboxClosed

/-- Concrete healthy engine answering every RPC with a fixed serialized
response. -/
def engineUp : Engine := fun _ _ => RaftSendOutcome.ok "resp"

/-- Session with the unreachable engine attached. -/
def sEngineDown : NodeSession :=
  { hb := 0, id := none, raft := some engineDown }

/-- Session with the healthy engine attached. -/
def sEngineUp : NodeSession :=
  { hb := 0, id := none, raft := some engineUp }

/-- C7: on every heartbeat-interval tick before termination, the tick
handler writes exactly one outbound `Ping` response frame, regardless of
whether the staleness check passed or failed on that tick (the
`act.framed.write(NodeResponse::Ping)` sits after, and independent of, the
staleness `if`; even on the tick that calls `ctx.stop()` the `Ping` is still
written). -/
theorem claim_C7_tick_always_writes_one_ping (now : Nat) (s : NodeSession) :
    (hbTick now s).writes = [NodeResponse.ping] := rfl

/-- C6: the heartbeat tick at time `t` stops the session exactly when the
elapsed time since the last heartbeat-refreshing `Ping` exceeds the
liveness threshold of 10 units, i.e. from time `hb + 11` on.  Ticks recur
every 1 time unit, so once the threshold is crossed (just after `hb + 10`)
the first subsequent tick — at most 1 unit later — stops the session, and no
tick at or before `hb + 10` does. -/
theorem claim_C6_terminates_within_one_tick (s : NodeSession) (t : Nat) :
    (hbTick t s).stopped = true ↔ s.hb + 10 < t := by
  simp only [hbTick, decide_eq_true_eq]
  omega

/-- Witness for C6 at a concrete session: with `hb = 0` the tick at time 11
stops the session. -/
theorem claim_C6_witness :
    (hbTick 11 (newSession 0)).stopped = true :=
  (claim_C6_terminates_within_one_tick (newSession 0) 11).mpr (by decide)

/-- C10: `Ping` only refreshes `last_heartbeat` (identity, engine handle and
everything else unchanged, no outbound traffic, no notification, no engine
call); `Join` only sets the identity (heartbeat unchanged); `Message`
changes neither the heartbeat nor the identity (its session state is
untouched). -/
theorem claim_C10_frame_effects (sd : SerdeModel) (now : Nat)
    (s : NodeSession) (i : NodeId) (mid : Nat) (k b : String) :
    (handleFrame sd now NodeRequest.ping s).session = { s with hb := now } ∧
    (handleFrame sd now NodeRequest.ping s).peerConnected = [] ∧
    (handleFrame sd now NodeRequest.ping s).writes = [] ∧
    (handleFrame sd now NodeRequest.ping s).engineCalls = [] ∧
    (handleFrame sd now (NodeRequest.join i) s).session
        = { s with id := some i } ∧
    (handleFrame sd now (NodeRequest.message mid k b) s).session = s := by
  refine ⟨rfl, rfl, rfl, rfl, rfl, ?_⟩
  cases h : (handleSendToRaft sd s.raft k b).result <;>
    simp [handleFrame, h]

/-- C3: a `Message` whose kind string is none of the three supported RPC
kinds falls to the wildcard arm: the session replies with exactly one
empty-payload `Result` carrying the original correlation id, sends nothing
to the engine, and neither signals an error nor aborts. -/
theorem claim_C3_unknown_kind_noop (sd : SerdeModel) (now : Nat)
    (s : NodeSession) (mid : Nat) (k b : String)
    (hk : k ∉ supportedKinds) :
    (handleFrame sd now (NodeRequest.message mid k b) s).writes
        = [NodeResponse.result mid ""] ∧
    (handleFrame sd now (NodeRequest.message mid k b) s).engineCalls = [] ∧
    (handleFrame sd now (NodeRequest.message mid k b) s).aborted = false := by
  simp only [supportedKinds, List.mem_cons, List.not_mem_nil, or_false,
    not_or] at hk
  obtain ⟨h1, h2, h3⟩ := hk
  refine ⟨?_, ?_, ?_⟩ <;> simp [handleFrame, handleSendToRaft, h1, h2, h3]

/-- Witness for C3 at the concrete unsupported kind string
`"ClientPayload"`. -/
theorem claim_C3_witness :
    (handleFrame sdProbe 0 (NodeRequest.message 5 "ClientPayload" "x")
        (newSession 0)).writes = [NodeResponse.result 5 ""] ∧
    (handleFrame sdProbe 0 (NodeRequest.message 5 "ClientPayload" "x")
        (newSession 0)).engineCalls = [] ∧
    (handleFrame sdProbe 0 (NodeRequest.message 5 "ClientPayload" "x")
        (newSession 0)).aborted = false :=
  claim_C3_unknown_kind_noop sdProbe 0 (newSession 0) 5 "ClientPayload" "x"
    (by decide)

/-- C5: a `Message` with a supported kind whose payload fails to
deserialize panics at `serde_json::from_slice(..).unwrap()` inside the
`SendToRaft` handler — the dispatch aborts and no reply frame is written;
deserialization failure is fatal in this design. -/
theorem claim_C5_malformed_payload_aborts (sd : SerdeModel) (now : Nat)
    (s : NodeSession) (mid : Nat) (k b : String)
    (hk : k ∈ supportedKinds) (hd : decodesAs sd k b = false) :
    (handleSendToRaft sd s.raft k b).result = FutResult.abort ∧
    (handleFrame sd now (NodeRequest.message mid k b) s).aborted = true ∧
    (handleFrame sd now (NodeRequest.message mid k b) s).writes = [] := by
  simp only [supportedKinds, List.mem_cons, List.not_mem_nil, or_false]
    at hk
  rcases hk with h | h | h <;> subst h <;> simp [decodesAs] at hd <;>
    refine ⟨?_, ?_, ?_⟩ <;> simp [handleFrame, handleSendToRaft, hd]

/-- Witness for C5: under `sdProbe` the empty body fails to deserialize as
a `VoteRequest`, and the session aborts on it. -/
theorem claim_C5_witness :
    (handleSendToRaft sdProbe (newSession 0).raft "VoteRequest" "").result
        = FutResult.abort ∧
    (handleFrame sdProbe 0 (NodeRequest.message 9 "VoteRequest" "")
        (newSession 0)).aborted = true ∧
    (handleFrame sdProbe 0 (NodeRequest.message 9 "VoteRequest" "")
        (newSession 0)).writes = [] :=
  claim_C5_malformed_payload_aborts sdProbe 0 (newSession 0) 9
    "VoteRequest" "" (by decide) (by decide)

/-- C8: whenever the `SendToRaft` dispatch completes with a payload, the
spawned continuation writes back exactly one `Result` frame tagged with the
same correlation id `mid` that arrived in the request, carrying that payload
— and does not abort. -/
theorem claim_C8_result_echoes_correlation_id (sd : SerdeModel) (now : Nat)
    (s : NodeSession) (mid : Nat) (k b payload : String)
    (h : (handleSendToRaft sd s.raft k b).result = FutResult.ok payload) :
    (handleFrame sd now (NodeRequest.message mid k b) s).writes
        = [NodeResponse.result mid payload] ∧
    (handleFrame sd now (NodeRequest.message mid k b) s).aborted = false := by
  refine ⟨?_, ?_⟩ <;> simp [handleFrame, h]

/-- Witness for C8: with the healthy engine attached, correlation id 42 is
echoed on the serialized engine response. -/
theorem claim_C8_witness :
    (handleFrame sdProbe 0 (NodeRequest.message 42 "VoteRequest" "req")
        sEngineUp).writes = [NodeResponse.result 42 "resp"] ∧
    (handleFrame sdProbe 0 (NodeRequest.message 42 "VoteRequest" "req")
        sEngineUp).aborted = false :=
  claim_C8_result_echoes_correlation_id sdProbe 0 sEngineUp 42
    "VoteRequest" "req" "resp" (by decide)

/-- C9: for every supported kind the payload is deserialized before
`self.raft` is inspected, so with an absent engine handle a malformed
payload still aborts, and the engine-absent empty-payload `Result` arises
exactly for the payloads that deserialize successfully. -/
theorem claim_C9_decode_precedes_engine_check (sd : SerdeModel)
    (k b : String) (hk : k ∈ supportedKinds) :
    (decodesAs sd k b = false →
      (handleSendToRaft sd none k b).result = FutResult.abort) ∧
    (decodesAs sd k b = true →
      (handleSendToRaft sd none k b).result = FutResult.ok "") := by
  simp only [supportedKinds, List.mem_cons, List.not_mem_nil, or_false]
    at hk
  rcases hk with h | h | h <;> subst h <;> constructor <;> intro hd <;>
    simp [decodesAs] at hd <;> simp [handleSendToRaft, hd]

/-- Witness for C9: with the engine absent, the empty body still aborts the
`AppendEntriesRequest` arm. -/
theorem claim_C9_witness :
    (handleSendToRaft sdProbe none "AppendEntriesRequest" "").result
        = FutResult.abort :=
  (claim_C9_decode_precedes_engine_check sdProbe "AppendEntriesRequest" ""
    (by decide)).1 (by decide)

/-- C1 counterexample: a supported `VoteRequest` whose engine call fails
with a closed mailbox.  The claim says the session replies with
`Result(42, "")` and never terminates; in fact the `SendToRaft` dispatch
resolves to `Err(())`, the continuation panics at `res.unwrap()`, no frame
at all is written, and the actor aborts. -/
theorem claim_C1_counterexample :
    (handleFrame sdProbe 0 (NodeRequest.message 42 "VoteRequest" "req")
        sEngineDown).writes = [] ∧
    (handleFrame sdProbe 0 (NodeRequest.message 42 "VoteRequest" "req")
        sEngineDown).aborted = true := by
  decide

/-- C1 amended: for every `Message` frame with a supported kind, a payload
that deserializes, and an attached engine whose mailbox is closed, the
`SendToRaft` dispatch resolves to `Err(())` after exactly one engine call
(the call is never retried), and the reply continuation panics at
`res.unwrap()` — writing no reply frame (in particular no empty-payload
`Result`) and aborting, rather than degrading gracefully. -/
theorem claim_C1_amended (sd : SerdeModel) (e : Engine) (now : Nat)
    (s : NodeSession) (mid : Nat) (k b : String)
    (hk : k ∈ supportedKinds) (hd : decodesAs sd k b = true)
    (hraft : s.raft = some e)
    (hfail : e k b = RaftSendOutcome.mailboxClosed) :
    (handleSendToRaft sd s.raft k b).result = FutResult.err ∧
    (handleSendToRaft sd s.raft k b).engineCalls = [(k, b)] ∧
    (handleFrame sd now (NodeRequest.message mid k b) s).writes = [] ∧
    (handleFrame sd now (NodeRequest.message mid k b) s).aborted = true := by
  have hsend : handleSendToRaft sd s.raft k b
      = ⟨FutResult.err, [(k, b)]⟩ := by
    rw [hraft]
    simp only [supportedKinds, List.mem_cons, List.not_mem_nil, or_false]
      at hk
    rcases hk with h | h | h <;> subst h <;> simp [decodesAs] at hd <;>
      simp [handleSendToRaft, raftCall, hd, hfail]
  refine ⟨by rw [hsend], by rw [hsend], ?_, ?_⟩ <;>
    simp [handleFrame, hsend]

/-- Witness for C1 amended, at the concrete unreachable engine. -/
theorem claim_C1_witness :
    (handleSendToRaft sdProbe sEngineDown.raft "VoteRequest" "req").result
        = FutResult.err ∧
    (handleSendToRaft sdProbe sEngineDown.raft "VoteRequest"
        "req").engineCalls = [("VoteRequest", "req")] ∧
    (handleFrame sdProbe 0 (NodeRequest.message 7 "VoteRequest" "req")
        sEngineDown).writes = [] ∧
    (handleFrame sdProbe 0 (NodeRequest.message 7 "VoteRequest" "req")
        sEngineDown).aborted = true :=
  claim_C1_amended sdProbe engineDown 0 sEngineDown 7 "VoteRequest" "req"
    (by decide) (by decide) rfl rfl

/-- C4 counterexample: with the engine handle absent, a supported
`AppendEntriesRequest` whose payload fails to deserialize does not produce
`Result(7, "")` — deserialization runs first, its `unwrap` panics, and the
session aborts with no frame written. -/
theorem claim_C4_counterexample :
    (handleFrame sdProbe 0 (NodeRequest.message 7 "AppendEntriesRequest" "")
        (newSession 0)).writes ≠ [NodeResponse.result 7 ""] ∧
    (handleFrame sdProbe 0 (NodeRequest.message 7 "AppendEntriesRequest" "")
        (newSession 0)).aborted = true := by
  decide

/-- C4 amended: for every `Message(cid, kind, body)` received while the
engine handle is absent, provided the payload deserializes under its kind
(vacuously so for unsupported kinds), the session emits exactly one
`Result(cid, "")` with an empty payload, never calls the engine, and does
not abort; a supported kind whose payload fails to deserialize instead
aborts (see the counterexample). -/
theorem claim_C4_amended (sd : SerdeModel) (now : Nat) (s : NodeSession)
    (mid : Nat) (k b : String) (hraft : s.raft = none)
    (hd : decodesAs sd k b = true) :
    (handleFrame sd now (NodeRequest.message mid k b) s).writes
        = [NodeResponse.result mid ""] ∧
    (handleFrame sd now (NodeRequest.message mid k b) s).engineCalls
        = [] ∧
    (handleFrame sd now (NodeRequest.message mid k b) s).aborted
        = false := by
  have hsend : handleSendToRaft sd s.raft k b
      = ⟨FutResult.ok "", []⟩ := by
    rw [hraft]
    by_cases h1 : k = "AppendEntriesRequest"
    · subst h1
      simp [decodesAs] at hd
      simp [handleSendToRaft, hd]
    · by_cases h2 : k = "VoteRequest"
      · subst h2
        simp [decodesAs] at hd
        simp [handleSendToRaft, hd]
      · by_cases h3 : k = "InstallSnapshotRequest"
        · subst h3
          simp [decodesAs] at hd
          simp [handleSendToRaft, hd]
        · simp [handleSendToRaft, h1, h2, h3]
  refine ⟨?_, ?_, ?_⟩ <;> simp [handleFrame, hsend]

/-- Witness for C4 amended: engine absent, a deserializable
`InstallSnapshotRequest` body. -/
theorem claim_C4_witness :
    (handleFrame sdProbe 3 (NodeRequest.message 8 "InstallSnapshotRequest"
        "x") (newSession 0)).writes = [NodeResponse.result 8 ""] ∧
    (handleFrame sdProbe 3 (NodeRequest.message 8 "InstallSnapshotRequest"
        "x") (newSession 0)).engineCalls = [] ∧
    (handleFrame sdProbe 3 (NodeRequest.message 8 "InstallSnapshotRequest"
        "x") (newSession 0)).aborted = false :=
  claim_C4_amended sdProbe 3 (newSession 0) 8 "InstallSnapshotRequest" "x"
    rfl (by decide)

/-- Helper: one frame's notifications are the `Join` identities of that
frame alone. -/
theorem handleFrame_peerConnected (sd : SerdeModel) (now : Nat)
    (f : NodeRequest) (s : NodeSession) :
    (handleFrame sd now f s).peerConnected = joinIds [f] := by
  cases f with
  | ping => rfl
  | join i => rfl
  | other => rfl
  | message mid k b =>
      cases h : (handleSendToRaft sd s.raft k b).result <;>
        simp [handleFrame, h, joinIds]

/-- Helper: one frame's effect on the identity field is `lastJoin` of that
frame alone. -/
theorem handleFrame_session_id (sd : SerdeModel) (now : Nat)
    (f : NodeRequest) (s : NodeSession) :
    (handleFrame sd now f s).session.id = lastJoin [f] s.id := by
  cases f with
  | ping => rfl
  | join i => rfl
  | other => rfl
  | message mid k b =>
      cases h : (handleSendToRaft sd s.raft k b).result <;>
        simp [handleFrame, h, lastJoin]

/-- Helper: `joinIds` distributes over a cons via the head frame alone. -/
theorem joinIds_cons (f : NodeRequest) (rest : List NodeRequest) :
    joinIds (f :: rest) = joinIds [f] ++ joinIds rest := by
  cases f <;> simp [joinIds]

/-- Helper: `lastJoin` on a cons threads the head frame's effect into the
accumulator. -/
theorem lastJoin_cons (f : NodeRequest) (rest : List NodeRequest)
    (acc : Option NodeId) :
    lastJoin (f :: rest) acc = lastJoin rest (lastJoin [f] acc) := by
  cases f <;> simp [lastJoin]

/-- C2 counterexample: two `Join` frames on one session.  The claim says the
`PeerConnected` notification fires exactly once and the identity set by the
first `Join` is never changed; in fact both `Join` frames notify (two
notifications) and the second overwrites the identity to `some 2`. -/
theorem claim_C2_counterexample :
    (runFrames sdProbe [(0, NodeRequest.join 1), (0, NodeRequest.join 2)]
        (newSession 0)).peerConnected = [1, 2] ∧
    (runFrames sdProbe [(0, NodeRequest.join 1), (0, NodeRequest.join 2)]
        (newSession 0)).session.id = some 2 := by
  decide

/-- C2 amended: over any non-aborting run, the `PeerConnected` notification
is emitted once per `Join` frame — not once per session — carrying that
frame's identity in arrival order, and the session's identity after the run
is the last `Join` identity (or the prior value if no `Join` arrived): each
later `Join` overwrites it. -/
theorem claim_C2_amended (sd : SerdeModel)
    (frames : List (Nat × NodeRequest)) (s : NodeSession)
    (h : (runFrames sd frames s).aborted = false) :
    (runFrames sd frames s).peerConnected
        = joinIds (frames.map Prod.snd) ∧
    (runFrames sd frames s).session.id
        = lastJoin (frames.map Prod.snd) s.id := by
  induction frames generalizing s with
  | nil => exact ⟨rfl, rfl⟩
  | cons tf rest ih =>
      obtain ⟨now, f⟩ := tf
      by_cases hab : (handleFrame sd now f s).aborted
      · exfalso
        simp [runFrames, hab] at h
      · have hrun : runFrames sd ((now, f) :: rest) s =
            ⟨(runFrames sd rest (handleFrame sd now f s).session).session,
             (handleFrame sd now f s).peerConnected ++
               (runFrames sd rest
                 (handleFrame sd now f s).session).peerConnected,
             (handleFrame sd now f s).writes ++
               (runFrames sd rest (handleFrame sd now f s).session).writes,
             (runFrames sd rest
               (handleFrame sd now f s).session).aborted⟩ := by
          simp [runFrames, hab]
        have h2 : (runFrames sd rest
            (handleFrame sd now f s).session).aborted = false := by
          rw [hrun] at h
          exact h
        obtain ⟨ihn, ihi⟩ := ih (handleFrame sd now f s).session h2
        constructor
        · rw [hrun]
          simp only [List.map_cons]
          rw [joinIds_cons, handleFrame_peerConnected, ihn]
        · rw [hrun]
          simp only [List.map_cons]
          rw [lastJoin_cons, ihi, handleFrame_session_id]

/-- Witness for C2 amended: a `Join 1`, a `Ping`, then a `Join 2`; two
notifications in order and final identity `some 2`. -/
theorem claim_C2_witness :
    (runFrames sdProbe
        [(0, NodeRequest.join 1), (2, NodeRequest.ping),
         (3, NodeRequest.join 2)] (newSession 0)).peerConnected
        = joinIds [NodeRequest.join 1, NodeRequest.ping,
            NodeRequest.join 2] ∧
    (runFrames sdProbe
        [(0, NodeRequest.join 1), (2, NodeRequest.ping),
         (3, NodeRequest.join 2)] (newSession 0)).session.id
        = lastJoin [NodeRequest.join 1, NodeRequest.ping,
            NodeRequest.join 2] (newSession 0).id :=
  claim_C2_amended sdProbe
    [(0, NodeRequest.join 1), (2, NodeRequest.ping),
     (3, NodeRequest.join 2)] (newSession 0) (by decide)

end Raftor
